import Mathlib

/-!
Verification development for the `programming-principles` single-page
application (`src/src/App.jsx`).  The component owns one piece of UI state
(the active tab identifier, a string initialised to "overview"), two static
in-memory lists (`principles` and `exercises`), renders four tabbed views,
and opens two hardcoded external URLs on button activation.  The embedding
translates the static data verbatim, models the event handlers as a step
function on an explicit state, and models the rendered card content of the
Principles and Exercises views as Lean structures.
-/

namespace ProgPrinciples

/-- A principle record from the `principles` array in `App.jsx` (lines
14–51).  The `icon` JSX element is represented by the name of the icon
component it instantiates. -/
structure Principle where
  id : String
  name : String
  fullName : String
  iconName : String
  color : String
  description : String
  benefits : List String
deriving Repr, DecidableEq

/-- The four static principle records, copied verbatim from `App.jsx`. -/
def principles : List Principle :=
  [ { id := "dry"
    , name := "DRY"
    , fullName := "Don't Repeat Yourself"
    , iconName := "Target"
    , color := "bg-blue-500"
    , description := "Avoid duplication of code, logic, or data. Every piece of knowledge should have a single, unambiguous representation."
    , benefits := ["Maintainability", "Readability", "Reduced Bugs", "Faster Development"] }
  , { id := "kiss"
    , name := "KISS"
    , fullName := "Keep It Simple, Stupid"
    , iconName := "Lightbulb"
    , color := "bg-green-500"
    , description := "Simplicity should be a key goal in design. Avoid unnecessary complexity and over-engineering."
    , benefits := ["Readability", "Reduced Bugs", "Faster Development", "Easier Maintenance"] }
  , { id := "srp"
    , name := "SRP"
    , fullName := "Single Responsibility Principle"
    , iconName := "Shield"
    , color := "bg-purple-500"
    , description := "A class should have only one reason to change. Each module should have responsibility over a single part of functionality."
    , benefits := ["Modularity", "Maintainability", "Testability", "Clarity"] }
  , { id := "solid"
    , name := "SOLID"
    , fullName := "SOLID Principles"
    , iconName := "Layers"
    , color := "bg-orange-500"
    , description := "Five design principles (SRP, OCP, LSP, ISP, DIP) that make software designs more understandable, flexible, and maintainable."
    , benefits := ["Robustness", "Flexibility", "Maintainability", "Testability"] } ]

/-- An exercise record from the `exercises` array in `App.jsx` (lines
53–96). -/
structure Exercise where
  principle : String
  title : String
  language : String
  scenario : String
  difficulty : String
deriving Repr, DecidableEq

/-- The six static exercise records, copied verbatim from `App.jsx`. -/
def exercises : List Exercise :=
  [ { principle := "DRY"
    , title := "Data Validation"
    , language := "Python"
    , scenario := "User Registration and Profile Update"
    , difficulty := "Beginner" }
  , { principle := "DRY"
    , title := "API Response Formatting"
    , language := "Node.js/Next.js"
    , scenario := "Consistent API Response Structure"
    , difficulty := "Beginner" }
  , { principle := "KISS"
    , title := "Order Processing Logic"
    , language := "Python"
    , scenario := "Complex Discount Calculation"
    , difficulty := "Intermediate" }
  , { principle := "KISS"
    , title := "Frontend Form Handling"
    , language := "Node.js/Next.js"
    , scenario := "Checkout Form Validation"
    , difficulty := "Intermediate" }
  , { principle := "SRP"
    , title := "User Management"
    , language := "Python"
    , scenario := "Overloaded User Class"
    , difficulty := "Intermediate" }
  , { principle := "SRP"
    , title := "API Request Handling"
    , language := "Node.js/Next.js"
    , scenario := "Overloaded API Route Handler"
    , difficulty := "Intermediate" } ]

/-- The values of the four `TabsTrigger` elements in the `TabsList`
(`App.jsx` lines 128–131), in document order; these are also the values of
the four `TabsContent` elements. -/
def tabValues : List String := ["overview", "principles", "exercises", "resources"]

/-- The repository URL opened by the header View Source button (line 115)
and the Download Examples button (line 309). -/
def repoUrl : String := "https://github.com/prabodh-dev1/programming-principles"

/-- The README URL opened by the per-exercise external-link button (line
285) and the View Full Document button (line 305). -/
def readmeUrl : String := "https://github.com/prabodh-dev1/programming-principles/blob/main/README.md"

/-- The mutable state of the component together with a log of external
navigations.  `activeSection` embeds the single `useState` hook (line 12);
`openedUrls` records, in order, every URL passed to `window.open` so that
the frame conditions of the external-link handlers can be stated.  The two
static lists are top-level constants of the embedding, exactly as they are
recreated identically on every render in the source, so they cannot be
mutated by any action. -/
structure AppState where
  activeSection : String
  openedUrls : List String
deriving Repr, DecidableEq

/-- The state on a fresh mount: `useState('overview')` (line 12) and no
external navigation performed yet. -/
def initState : AppState := { activeSection := "overview", openedUrls := [] }

/-- The user actions available on the page: clicking one of the four tab
triggers, the Overview call-to-action button (line 183), the header View
Source button (line 115), an exercise card's external-link button (line
285), the View Full Document button (line 305), or the Download Examples
button (line 309). -/
inductive Action where
  | clickTrigger (i : Fin 4)
  | clickStartExercises
  | clickViewSource
  | clickExerciseLink (i : Nat)
  | clickViewFullDocument
  | clickDownloadExamples
deriving Repr, DecidableEq

/-- One synchronous event dispatch.  Tab triggers invoke `onValueChange`
(= `setActiveSection`, line 126) with the trigger's value; the Overview
call-to-action runs `setActiveSection('exercises')` (line 183); the four
external-link handlers call `window.open` with their hardcoded URL and
touch no state. -/
def step (s : AppState) (a : Action) : AppState :=
  match a with
  | .clickTrigger i => { s with activeSection := tabValues.get i }
  | .clickStartExercises => { s with activeSection := "exercises" }
  | .clickViewSource => { s with openedUrls := s.openedUrls ++ [repoUrl] }
  | .clickExerciseLink _ => { s with openedUrls := s.openedUrls ++ [readmeUrl] }
  | .clickViewFullDocument => { s with openedUrls := s.openedUrls ++ [readmeUrl] }
  | .clickDownloadExamples => { s with openedUrls := s.openedUrls ++ [repoUrl] }

/-- States reachable from a fresh mount by the available actions. -/
inductive Reachable : AppState → Prop where
  | init : Reachable initState
  | tail {s : AppState} (a : Action) : Reachable s → Reachable (step s a)

/-- Modelled from the spec: the `Tabs` UI component lives in
`src/components/ui/tabs.jsx`, which is not part of the provided sources;
per spec section 4.1 it renders exactly the one content view whose value
equals the active tab identifier and hides the other three.  A
`TabsContent` with value `v` is therefore visible iff `v` equals the
current `activeSection`. -/
def contentVisible (activeSection v : String) : Bool := v == activeSection

/-- The values of the content views visible for a given active section,
among the four `TabsContent` views present in the markup. -/
def visibleViews (activeSection : String) : List String :=
  tabValues.filter (fun v => contentVisible activeSection v)

/-- A fresh mount of the component after a page reload.  `App.jsx` reads no
storage or persistence mechanism anywhere, so the prior state is
discarded entirely and `useState('overview')` starts over. -/
def reload (_ : AppState) : AppState := initState

/-- The rendered content of one card of the Principles view (`App.jsx`
lines 204–251): the `CardTitle` interpolation, the `CardDescription`
ordinal caption, the description paragraph, and the benefits list items. -/
structure PrincipleCard where
  title : String
  subtitle : String
  description : String
  benefits : List String
deriving Repr, DecidableEq

/-- Rendering of `principles.map((principle, index) => ...)` in the
Principles `TabsContent`: the title is
`{principle.fullName} ({principle.name})` (line 212), the subtitle is
`Essential principle #{index + 1}` (line 213), and the description and
benefits are read from the record (lines 218, 227). -/
def renderPrincipleCard (p : Principle) (index : Nat) : PrincipleCard :=
  { title := p.fullName ++ " (" ++ p.name ++ ")"
  , subtitle := "Essential principle #" ++ toString (index + 1)
  , description := p.description
  , benefits := p.benefits }

/-- The card list of the Principles view, one card per record in list
order. -/
def principlesView : List PrincipleCard :=
  principles.enum.map (fun ip => renderPrincipleCard ip.2 ip.1)

/-- The rendered content of one card of the Exercises view (`App.jsx`
lines 265–296): the three badges, the difficulty badge's variant, the
title, the scenario, and the URL of the card's external-link button. -/
structure ExerciseCard where
  principleTag : String
  languageBadge : String
  difficultyBadge : String
  difficultyVariant : String
  title : String
  scenario : String
  linkUrl : String
deriving Repr, DecidableEq

/-- Rendering of `exercises.map((exercise, index) => ...)` in the
Exercises `TabsContent`: badges read `exercise.principle`,
`exercise.language` and `exercise.difficulty` (lines 272–281); the
difficulty badge's variant is the ternary
`exercise.difficulty === 'Beginner' ? 'default' : 'destructive'`
(line 278); the link button opens the README URL (line 285). -/
def renderExerciseCard (e : Exercise) : ExerciseCard :=
  { principleTag := e.principle
  , languageBadge := e.language
  , difficultyBadge := e.difficulty
  , difficultyVariant := if e.difficulty = "Beginner" then "default" else "destructive"
  , title := e.title
  , scenario := e.scenario
  , linkUrl := readmeUrl }

/-- The card list of the Exercises view, one card per record in list
order. -/
def exercisesView : List ExerciseCard := exercises.map renderExerciseCard

/-- The string fields stored in a principle record, used to state that a
given rendered text is (or is not) a direct read of a stored field. -/
def principleFields (p : Principle) : List String :=
  [p.id, p.name, p.fullName, p.iconName, p.color, p.description] ++ p.benefits

/-- The string fields stored in an exercise record. -/
def exerciseFields (e : Exercise) : List String :=
  [e.principle, e.title, e.language, e.scenario, e.difficulty]

end ProgPrinciples

namespace ProgPrinciples

/-- C1: selecting any of the four tab triggers sets the active-view state
to that trigger's identifier, and the render then shows exactly the one
content view whose value matches the active section, with the other three
views absent from the visible list. -/
theorem C1_tab_selection_shows_exactly_one_view (s : AppState) (i : Fin 4) :
    (step s (.clickTrigger i)).activeSection = tabValues.get i ∧
    visibleViews (step s (.clickTrigger i)).activeSection = [tabValues.get i] := by
  refine ⟨rfl, ?_⟩
  fin_cases i <;> rfl

/-- C2: activating the Overview call-to-action button sets the active
section to "exercises", and every other action that changes the active
section is a tab-trigger selection, so the call-to-action is the only
non-trigger tab transition. -/
theorem C2_cta_navigates_to_exercises (s : AppState) :
    (step s .clickStartExercises).activeSection = "exercises" ∧
    ∀ a : Action, (step s a).activeSection ≠ s.activeSection →
      a = .clickStartExercises ∨ ∃ i : Fin 4, a = .clickTrigger i := by
  refine ⟨rfl, ?_⟩
  intro a h
  cases a with
  | clickTrigger i => exact Or.inr ⟨i, rfl⟩
  | clickStartExercises => exact Or.inl rfl
  | clickViewSource => exact absurd rfl h
  | clickExerciseLink i => exact absurd rfl h
  | clickViewFullDocument => exact absurd rfl h
  | clickDownloadExamples => exact absurd rfl h

theorem C2_cta_navigates_to_exercises_witness :
    (step initState Action.clickStartExercises).activeSection ≠ initState.activeSection ∧
    (Action.clickStartExercises = Action.clickStartExercises ∨
      ∃ i : Fin 4, Action.clickStartExercises = Action.clickTrigger i) :=
  ⟨by decide,
   (C2_cta_navigates_to_exercises initState).2 Action.clickStartExercises (by decide)⟩

/-- C3: the Principles view renders exactly four cards, one per record of
the static list in list order; each card's title carries the record's full
name and short name verbatim, its description and ordered benefits list
are read unchanged, and the DRY card's benefits are exactly
["Maintainability", "Readability", "Reduced Bugs", "Faster Development"]. -/
theorem C3_principles_view_content :
    principlesView.length = 4 ∧ principles.length = 4 ∧
    (principlesView.zip principles).all
      (fun cp => cp.1.title == cp.2.fullName ++ " (" ++ cp.2.name ++ ")"
        && cp.1.description == cp.2.description
        && cp.1.benefits == cp.2.benefits) = true ∧
    (principles.map (fun p => p.name)).get? 0 = some "DRY" ∧
    (principlesView.map (fun c => c.benefits)).get? 0 =
      some ["Maintainability", "Readability", "Reduced Bugs", "Faster Development"] :=
  ⟨rfl, rfl, by decide, rfl, rfl⟩

/-- C4: the Exercises view renders exactly six cards, one per record of
the static list in list order; each card's principle tag, language label,
difficulty badge, title and scenario are the record's literal strings, and
the first card is the Beginner Python "Data Validation" exercise. -/
theorem C4_exercises_view_content :
    exercisesView.length = 6 ∧ exercises.length = 6 ∧
    (exercisesView.zip exercises).all
      (fun ce => ce.1.principleTag == ce.2.principle
        && ce.1.languageBadge == ce.2.language
        && ce.1.difficultyBadge == ce.2.difficulty
        && ce.1.title == ce.2.title
        && ce.1.scenario == ce.2.scenario) = true ∧
    exercisesView.get? 0 = some
      { principleTag := "DRY", languageBadge := "Python", difficultyBadge := "Beginner"
      , difficultyVariant := "default", title := "Data Validation"
      , scenario := "User Registration and Profile Update", linkUrl := readmeUrl } :=
  ⟨rfl, rfl, by decide, rfl⟩

/-- C5: each of the four external-link controls appends exactly one
navigation with its hardcoded URL to the log and leaves the rest of the
state, in particular the active section, unchanged; the two static lists
are top-level constants of the embedding and are untouched by `step`. -/
theorem C5_external_links_frame (s : AppState) (i : Nat) :
    step s .clickViewSource = { s with openedUrls := s.openedUrls ++ [repoUrl] } ∧
    step s (.clickExerciseLink i) = { s with openedUrls := s.openedUrls ++ [readmeUrl] } ∧
    step s .clickViewFullDocument = { s with openedUrls := s.openedUrls ++ [readmeUrl] } ∧
    step s .clickDownloadExamples = { s with openedUrls := s.openedUrls ++ [repoUrl] } ∧
    (step s .clickViewSource).activeSection = s.activeSection ∧
    (step s (.clickExerciseLink i)).activeSection = s.activeSection ∧
    (step s .clickViewFullDocument).activeSection = s.activeSection ∧
    (step s .clickDownloadExamples).activeSection = s.activeSection :=
  ⟨rfl, rfl, rfl, rfl, rfl, rfl, rfl, rfl⟩

/-- C6: a fresh load starts with active section "overview", and reloading
from any prior state yields exactly the initial state, since no
persistence mechanism is read or written. -/
theorem C6_reload_resets_to_overview (s : AppState) :
    initState.activeSection = "overview" ∧
    (reload s).activeSection = "overview" ∧
    reload s = initState :=
  ⟨rfl, rfl, rfl⟩

/-- C8: in every state reachable from the initial state by the available
actions, the active section is one of the four tab identifiers. -/
theorem C8_active_section_invariant (s : AppState) (h : Reachable s) :
    s.activeSection ∈ tabValues := by
  induction h with
  | init => decide
  | tail a hs ih =>
    cases a with
    | clickTrigger i => exact List.get_mem tabValues i.1 i.2
    | clickStartExercises => show "exercises" ∈ tabValues; decide
    | clickViewSource => exact ih
    | clickExerciseLink j => exact ih
    | clickViewFullDocument => exact ih
    | clickDownloadExamples => exact ih

theorem C8_active_section_invariant_witness :
    Reachable initState ∧ initState.activeSection ∈ tabValues :=
  ⟨Reachable.init, C8_active_section_invariant initState Reachable.init⟩

/-- C9: an exercise card's difficulty badge uses the "default" variant iff
the record's difficulty is the literal "Beginner" and the "destructive"
variant otherwise; in the static list exactly four cards get the
destructive variant, all with difficulty "Intermediate". -/
theorem C9_difficulty_badge_variant (e : Exercise) :
    ((renderExerciseCard e).difficultyVariant = "default" ↔ e.difficulty = "Beginner") ∧
    (e.difficulty ≠ "Beginner" → (renderExerciseCard e).difficultyVariant = "destructive") ∧
    (exercisesView.filter (fun c => c.difficultyVariant == "destructive")).length = 4 ∧
    (exercisesView.filter (fun c => c.difficultyVariant == "destructive")).all
      (fun c => c.difficultyBadge == "Intermediate") = true := by
  refine ⟨?_, ?_, by decide, by decide⟩
  · constructor
    · intro hv
      by_cases h : e.difficulty = "Beginner"
      · exact h
      · exact absurd hv (by simp [renderExerciseCard, h])
    · intro h
      simp [renderExerciseCard, h]
  · intro h
    simp [renderExerciseCard, h]

theorem C9_difficulty_badge_variant_witness :
    ({ principle := "KISS", title := "Order Processing Logic", language := "Python"
     , scenario := "Complex Discount Calculation", difficulty := "Intermediate" }
       : Exercise).difficulty ≠ "Beginner" ∧
    (renderExerciseCard
      { principle := "KISS", title := "Order Processing Logic", language := "Python"
      , scenario := "Complex Discount Calculation", difficulty := "Intermediate" }
      ).difficultyVariant = "destructive" :=
  ⟨by decide,
   (C9_difficulty_badge_variant
     { principle := "KISS", title := "Order Processing Logic", language := "Python"
     , scenario := "Complex Discount Calculation", difficulty := "Intermediate" }).2.1
     (by decide)⟩

/-- C10: every exercise record's principle field is the short name of one
of the static principle records, yet the set of referenced names is
exactly {DRY, KISS, SRP}: SOLID is a principle name but no exercise
references it. -/
theorem C10_exercise_principle_image :
    exercises.all
      (fun e => (principles.map (fun p => p.name)).contains e.principle) = true ∧
    (exercises.map (fun e => e.principle)).dedup = ["DRY", "KISS", "SRP"] ∧
    "SOLID" ∈ principles.map (fun p => p.name) ∧
    "SOLID" ∉ exercises.map (fun e => e.principle) :=
  ⟨by decide, by decide, by decide, by decide⟩

/-- C7 as stated is false on the code: the Principles-view card caption
"Essential principle #1" is computed from the list index and equals no
stored field of any principle record, and the difficulty badge variant
"destructive" is a conditional mapping of the difficulty field and equals
no stored field of any exercise record. -/
theorem C7_counterexample :
    (principlesView.map (fun c => c.subtitle)).get? 0 = some "Essential principle #1" ∧
    principles.all
      (fun p => ((principleFields p).contains "Essential principle #1") == false) = true ∧
    (exercisesView.map (fun c => c.difficultyVariant)).get? 2 = some "destructive" ∧
    exercises.all
      (fun e => ((exerciseFields e).contains "destructive") == false) = true :=
  ⟨rfl, by decide, rfl, by decide⟩

/-- C7 amended: every textual field of the principle and exercise cards is
a direct, unmodified read of the record (the principle card title being
the verbatim concatenation of full name and short name), with exactly two
computed exceptions: the principle card's ordinal caption, derived from
the list index as "Essential principle #(index+1)", and the exercise
difficulty badge's variant, conditionally mapped from the difficulty
field. -/
theorem C7_direct_reads_except_caption_and_variant
    (p : Principle) (i : Nat) (e : Exercise) :
    (renderPrincipleCard p i).title = p.fullName ++ " (" ++ p.name ++ ")" ∧
    (renderPrincipleCard p i).description = p.description ∧
    (renderPrincipleCard p i).benefits = p.benefits ∧
    (renderPrincipleCard p i).subtitle = "Essential principle #" ++ toString (i + 1) ∧
    (renderExerciseCard e).principleTag = e.principle ∧
    (renderExerciseCard e).languageBadge = e.language ∧
    (renderExerciseCard e).title = e.title ∧
    (renderExerciseCard e).scenario = e.scenario ∧
    (renderExerciseCard e).difficultyBadge = e.difficulty ∧
    (renderExerciseCard e).difficultyVariant =
      (if e.difficulty = "Beginner" then "default" else "destructive") :=
  ⟨rfl, rfl, rfl, rfl, rfl, rfl, rfl, rfl, rfl, rfl⟩

end ProgPrinciples
